import Mathlib

/-!
Verification of the SDARS fusion-and-alerting pipeline.

The frontend JavaScript under src/frontend/js and src/unnamed is embedded
directly (getMaxRisk, addLocationMarker / loadAllLocations, deleteZone).
The backend Python core (RiskFusionEngine, WeatherHistoryTracker,
ZoneMatcher, AlertDispatcher) is not part of the available sources; those
components are modelled from the specification text, and every such
definition is marked with a doc comment starting with Modelled from the spec.
All numeric quantities are modelled as rationals.
-/

namespace SDARS

/-! ## Shared data model -/

inductive Hazard where
  | fire
  | flood
  | cyclone
deriving DecidableEq, Repr

inductive RiskLevel where
  | LOW
  | MEDIUM
  | HIGH
  | CRITICAL
deriving DecidableEq, Repr

/-- Ordinal rank of a risk level: LOW < MEDIUM < HIGH < CRITICAL. -/
def riskRank : RiskLevel → Nat
  | .LOW => 0
  | .MEDIUM => 1
  | .HIGH => 2
  | .CRITICAL => 3

/-! ## Frontend risk classification (src/unnamed/part_002, getMaxRisk, lines 444-457)

A prediction object carries three optional per-hazard assessments whose
confidence field may itself be absent.  The JS expression
`prediction.fire?.confidence || 0` collapses a missing assessment, a missing
confidence field, and a zero confidence to 0. -/

/-- The four strings getMaxRisk can return. -/
inductive FrontRisk where
  | high
  | medium
  | low
  | safe
deriving DecidableEq, Repr

/-- A prediction as seen by getMaxRisk: each hazard field is an optional
assessment whose confidence field is itself optional. -/
structure Prediction where
  fire : Option (Option ℚ)
  flood : Option (Option ℚ)
  cyclone : Option (Option ℚ)

/-- JS `prediction.X?.confidence || 0`: a missing assessment or a missing
confidence field reads as 0 (a present confidence 0 also reads as 0). -/
def confOrZero : Option (Option ℚ) → ℚ
  | none => 0
  | some none => 0
  | some (some c) => c

/-- JS `Math.max(risks.fire, risks.flood, risks.cyclone)`. -/
def maxConf (p : Prediction) : ℚ :=
  max (confOrZero p.fire) (max (confOrZero p.flood) (confOrZero p.cyclone))

/-- src/unnamed/part_002 lines 444-457: strict band comparisons against
0.7, 0.4, 0.1. -/
def getMaxRisk (p : Prediction) : FrontRisk :=
  if (7 : ℚ)/10 < maxConf p then .high
  else if (2 : ℚ)/5 < maxConf p then .medium
  else if (1 : ℚ)/10 < maxConf p then .low
  else .safe

/-! ## Map loading (src/unnamed/part_002, loadAllLocations lines 119-175 and
addLocationMarker lines 386-436)

addLocationMarker fetches a prediction for one location; a null response or a
thrown error is caught inside the function and routed to addFallbackMarker,
which itself skips locations with missing coordinates.  loadAllLocations maps
addLocationMarker over all monitored locations and awaits them with
Promise.allSettled, so each location is processed from its own data alone. -/

structure MapLocation where
  name : String
  lat : Option ℚ
  lon : Option ℚ
deriving DecidableEq

/-- Outcome of fetchPrediction for one location: a prediction, or a failure
(fetchPrediction returning null as well as a thrown network error, both of
which addLocationMarker routes to the fallback path). -/
inductive FetchOutcome where
  | success (pred : Prediction)
  | failure

/-- What addLocationMarker leaves on the map for one location. -/
inductive MarkerResult where
  | marker (risk : FrontRisk)
  | fallback
  | skipped
deriving DecidableEq, Repr

/-- src/unnamed/part_002 lines 386-436 together with addFallbackMarker
(lines 479-500): success yields a risk-coloured marker, failure yields the
fallback marker unless the coordinates are missing. -/
def addLocationMarker (loc : MapLocation) (outcome : FetchOutcome) : MarkerResult :=
  match outcome with
  | .success p => .marker (getMaxRisk p)
  | .failure =>
      if loc.lat.isNone || loc.lon.isNone then .skipped else .fallback

/-- src/unnamed/part_002 lines 119-127: one unit of work per location,
joined with Promise.allSettled. -/
def loadAllLocations (locs : List (MapLocation × FetchOutcome)) : List MarkerResult :=
  locs.map (fun lo => addLocationMarker lo.1 lo.2)

/-! ## Zone deletion (src/frontend/js/prediction.js, deleteZone lines 1060-1102)

Zone ids may arrive as numbers or strings; deleteZone normalizes both sides
with String(-).  After the confirm dialog, the backend DELETE is attempted
(a 404 is tolerated, any other failure is caught), and the local removal from
zonesState.zones and from the drawn map layers runs unconditionally. -/

/-- A JS zone id: a number or a string. -/
inductive JsId where
  | num (n : Int)
  | str (s : String)
deriving DecidableEq, Repr

/-- JS String(x) applied to a zone id. -/
def jsIdString : JsId → String
  | .num n => toString n
  | .str s => s

structure ZoneRec where
  zone_id : JsId
  name : String
deriving DecidableEq, Repr

/-- The part of zonesState that deleteZone mutates: the zones array and the
drawn layers (a layer without zoneData is modelled as none). -/
structure ZonesPageState where
  zones : List ZoneRec
  layers : List (Option ZoneRec)
deriving DecidableEq

/-- Outcome of the backend DELETE request. -/
inductive DeleteOutcome where
  | ok
  | notFound404
  | httpError
  | networkError
deriving DecidableEq, Repr

/-- src/frontend/js/prediction.js lines 1060-1102: when not confirmed,
nothing happens; otherwise the local removal runs on every path, whatever the
backend outcome (404 and errors are caught before the removal). -/
def deleteZone (st : ZonesPageState) (zoneId : JsId) (confirmed : Bool)
    (outcome : DeleteOutcome) : ZonesPageState :=
  if !confirmed then st
  else
    let targetId := jsIdString zoneId
    { zones := st.zones.filter (fun z => jsIdString z.zone_id != targetId),
      layers := st.layers.filter (fun l =>
        match l with
        | none => true
        | some z => jsIdString z.zone_id != targetId) }

/-! ## RiskFusionEngine risk-level assignment (backend, not under src/) -/

/-- Modelled from the spec: the RiskFusionEngine (backend
ai_models/multi_modal_predictor.py, not under src/) assigns the discrete risk
level from the confidence score via exposed per-hazard cut points (spec 4.3);
the HIGH cut and the MEDIUM cut are configuration values. -/
structure RiskThresholds where
  highCut : ℚ
  mediumCut : ℚ

/-- Modelled from the spec: reference HIGH cut points per hazard, fire 0.75,
flood 0.70, cyclone 0.65 (spec 4.3 and backend config.py as quoted in
src/backend/README.md). -/
def referenceHighCut : Hazard → ℚ
  | .fire => 3/4
  | .flood => 7/10
  | .cyclone => 13/20

/-- Modelled from the spec: risk level as a function of the confidence via
the threshold table, confidence at or above the HIGH cut maps to HIGH, the
intermediate band to MEDIUM, the rest to LOW. -/
def assignRiskLevel (t : RiskThresholds) (confidence : ℚ) : RiskLevel :=
  if t.highCut ≤ confidence then .HIGH
  else if t.mediumCut ≤ confidence then .MEDIUM
  else .LOW

/-! ## RiskFusionEngine contribution split (backend, not under src/) -/

inductive SourceTag where
  | satellite
  | weather
deriving DecidableEq, Repr

/-- Modelled from the spec: one entry of the declarative
(predicate, weight, source-tag, reason-text) rule list of the
RiskFusionEngine (spec 4.3), recorded together with the outcome of its
predicate on the current inputs. -/
structure FusionRule where
  weight : ℚ
  source : SourceTag
  reason : String
  fired : Bool

/-- Sum of the weights of the satisfied rules. -/
def firedWeight (rs : List FusionRule) : ℚ :=
  (rs.filter (fun r => r.fired)).foldr (fun r a => r.weight + a) 0

/-- Sum of the weights of the satisfied rules carrying a given source tag. -/
def firedWeightOf (tag : SourceTag) (rs : List FusionRule) : ℚ :=
  (rs.filter (fun r => r.fired && r.source == tag)).foldr (fun r a => r.weight + a) 0

/-- Maximum attainable score of a rule set: the sum of all weights. -/
def maxScore (rs : List FusionRule) : ℚ :=
  rs.foldr (fun r a => r.weight + a) 0

def clamp01 (x : ℚ) : ℚ := max 0 (min 1 x)

/-- Modelled from the spec: confidence = clamp of the satisfied weight
normalized against the maximum attainable score (spec 4.3). -/
def confidence (rs : List FusionRule) : ℚ :=
  clamp01 (firedWeight rs / maxScore rs)

/-- Modelled from the spec: satellite share of the total satisfied weight;
0 when nothing fired. -/
def satelliteContribution (rs : List FusionRule) : ℚ :=
  if firedWeight rs = 0 then 0 else firedWeightOf .satellite rs / firedWeight rs

/-- Modelled from the spec: weather share of the total satisfied weight;
0 when nothing fired. -/
def weatherContribution (rs : List FusionRule) : ℚ :=
  if firedWeight rs = 0 then 0 else firedWeightOf .weather rs / firedWeight rs

/-! ## AlertDispatcher lifecycle (backend, not under src/) -/

inductive AlertState where
  | ACTIVE
  | ACKNOWLEDGED
  | ARCHIVED
deriving DecidableEq, Repr

/-- Alert key: zone_id-or-null paired with the hazard type (spec 4.5). -/
abbrev AlertKey := Option Nat × Hazard

/-- Modelled from the spec: an alert held by the AlertDispatcher (spec 3),
reduced to the fields its lifecycle state machine reads. -/
structure Alert where
  id : Nat
  zoneId : Option Nat
  hazard : Hazard
  state : AlertState
deriving DecidableEq, Repr

def Alert.key (a : Alert) : AlertKey := (a.zoneId, a.hazard)

def isActiveFor (k : AlertKey) (a : Alert) : Bool :=
  a.key == k && a.state == .ACTIVE

/-- Number of ACTIVE alerts stored for one key. -/
def countActive (s : List Alert) (k : AlertKey) : Nat :=
  s.countP (isActiveFor k)

def hasActive (s : List Alert) (k : AlertKey) : Bool :=
  s.any (isActiveFor k)

/-- Modelled from the spec: on a qualifying assessment, create an ACTIVE
alert for the key unless one already exists, in which case creation of a
duplicate is suppressed (spec 4.5); the check-then-create step is serialized
per key (spec 5), so it is modelled as one atomic operation. -/
def createAlert (s : List Alert) (newId : Nat) (k : AlertKey) : List Alert :=
  if hasActive s k then s else ⟨newId, k.1, k.2, .ACTIVE⟩ :: s

/-- Modelled from the spec: the effect of acknowledge on one stored alert,
ACTIVE goes to ACKNOWLEDGED, anything else is left untouched (spec 4.5). -/
def ackOne (aid : Nat) (a : Alert) : Alert :=
  if a.id == aid && a.state == .ACTIVE then { a with state := .ACKNOWLEDGED } else a

/-- Modelled from the spec: acknowledge(alert_id, user) transitions
ACTIVE to ACKNOWLEDGED and is a no-op, not an error, on an alert already
acknowledged (spec 4.5). -/
def acknowledge (s : List Alert) (aid : Nat) : List Alert :=
  s.map (ackOne aid)

/-- Modelled from the spec: the per-state effect of acknowledge,
ACTIVE goes to ACKNOWLEDGED, every other state is left unchanged without
error (spec 4.5). -/
def ackState : AlertState → AlertState
  | .ACTIVE => .ACKNOWLEDGED
  | s => s

/-- Modelled from the spec: retention-driven archival, the matching alert is
moved to ARCHIVED (spec 3 and 4.5). -/
def archiveAlert (s : List Alert) (aid : Nat) : List Alert :=
  s.map (fun a => if a.id == aid then { a with state := .ARCHIVED } else a)

/-- One operation of the AlertDispatcher lifecycle. -/
inductive DispatchOp where
  | create (newId : Nat) (k : AlertKey)
  | ack (aid : Nat)
  | archive (aid : Nat)

def applyOp (s : List Alert) : DispatchOp → List Alert
  | .create i k => createAlert s i k
  | .ack i => acknowledge s i
  | .archive i => archiveAlert s i

/-- A reachable alert store: the empty store after any sequence of
lifecycle operations. -/
def runOps (ops : List DispatchOp) : List Alert :=
  ops.foldl applyOp []

/-! ## Notification delivery aggregation (backend, not under src/) -/

/-- Outcome of one send attempt to one recipient over one channel. -/
inductive DeliveryResult where
  | delivered
  | bounced
deriving DecidableEq, Repr

inductive VerifStatus where
  | success
  | skipped
  | error
deriving DecidableEq, Repr

/-- The verification summary returned by zone create (spec 4.5 and 6). -/
structure Verification where
  status : VerifStatus
  success_count : Nat
  failure_count : Nat
  message : String
deriving DecidableEq, Repr

/-- Modelled from the spec: the delivery step of zone create (backend, not
under src/): for every zone recipient and every enabled channel attempt the
send independently; the summary is skipped when no recipients or channels
are configured, error only on a systemic failure such as broken channel
configuration, and otherwise success, a single recipient bounce counting
toward failure_count instead (spec 4.5). -/
def deliveryAttempts (recipients channels : List String)
    (send : String → String → DeliveryResult) : List DeliveryResult :=
  recipients.flatMap (fun r => channels.map (fun c => send r c))

def verifyDelivery (recipients channels : List String)
    (send : String → String → DeliveryResult) (systemicFailure : Bool) : Verification :=
  if recipients.isEmpty || channels.isEmpty then
    ⟨.skipped, 0, 0, "No recipients or channels configured"⟩
  else if systemicFailure then
    ⟨.error, 0, 0, "Channel configuration broken"⟩
  else
    ⟨.success,
      (deliveryAttempts recipients channels send).countP (fun d => d == .delivered),
      (deliveryAttempts recipients channels send).countP (fun d => d == .bounced),
      "Delivery attempted"⟩

/-! ## ZoneMatcher (backend, not under src/) -/

structure GeoPoint where
  lat : ℚ
  lon : ℚ
deriving DecidableEq, Repr

/-- Modelled from the spec: one edge test of the ray-casting reference
point-in-polygon algorithm (spec 4.4): a horizontal ray from the point
toward increasing longitude crosses the edge from a to b when the edge
spans the point latitude and the crossing lies at greater longitude. -/
def crossesRay (p a b : GeoPoint) : Bool :=
  (decide (p.lat < a.lat) != decide (p.lat < b.lat)) &&
    decide (p.lon < (b.lon - a.lon) * (p.lat - a.lat) / (b.lat - a.lat) + a.lon)

/-- Edges of an implicitly closed polygon (spec 3: vertices with
last distinct from first, implicitly closed). -/
def polygonEdges (poly : List GeoPoint) : List (GeoPoint × GeoPoint) :=
  match poly with
  | [] => []
  | q :: qs => poly.zip (qs ++ [q])

/-- Modelled from the spec: ray-casting point-in-polygon, the parity of the
number of polygon edges crossed by the horizontal ray (spec 4.4). -/
def pointInPolygon (poly : List GeoPoint) (p : GeoPoint) : Bool :=
  (polygonEdges poly).foldl (fun acc e => xor acc (crossesRay p e.1 e.2)) false

/-- A subscription zone as the ZoneMatcher reads it (spec 3). -/
structure SubZone where
  name : String
  polygon : List GeoPoint
  severity_threshold : RiskLevel
deriving DecidableEq, Repr

/-- Modelled from the spec: ZoneMatcher.matches filters the registry to the
zones whose polygon contains the point and whose severity_threshold is met
or exceeded by the assessment risk level under the ordinal order
LOW < MEDIUM < HIGH < CRITICAL (spec 4.4). -/
def matchesZones (registry : List SubZone) (p : GeoPoint) (risk : RiskLevel) : List SubZone :=
  registry.filter (fun z =>
    pointInPolygon z.polygon p && decide (riskRank z.severity_threshold ≤ riskRank risk))

/-! ## WeatherHistoryTracker delta (backend, not under src/) -/

/-- Modelled from the spec: one atmospheric sample held by the
WeatherHistoryTracker (spec 3); the timestamp is in seconds. -/
structure WeatherSample where
  timestamp : ℚ
  temperature : ℚ
  pressure : ℚ
  humidity : ℚ
deriving DecidableEq, Repr

/-- Modelled from the spec: a sample is usable for an offset when its
timestamp lies within the tolerance window of 20 percent of the offset
around now - offset (spec 4.2). -/
def withinTolerance (now offset : ℚ) (s : WeatherSample) : Bool :=
  decide (|s.timestamp - (now - offset)| ≤ offset / 5)

/-- Nearest sample to a target timestamp, none on an empty candidate list. -/
def nearestTo (target : ℚ) : List WeatherSample → Option WeatherSample
  | [] => none
  | s :: rest =>
    match nearestTo target rest with
    | none => some s
    | some t => if |s.timestamp - target| ≤ |t.timestamp - target| then some s else some t

/-- Modelled from the spec: delta(location_key, offset) = current minus the
sample nearest to now - offset among those within tolerance; Unavailable
(none) when no sample falls within tolerance, never an interpolated value
(spec 4.2). -/
def deltaTemperature (hist : List WeatherSample) (current : WeatherSample)
    (now offset : ℚ) : Option ℚ :=
  match nearestTo (now - offset) (hist.filter (withinTolerance now offset)) with
  | none => none
  | some s => some (current.temperature - s.temperature)

/-- Modelled from the spec: a delta-based scoring indicator of the
RiskFusionEngine, firing when the delta is available and reaches the
configured threshold (spec 4.3). -/
structure DeltaRule where
  weight : ℚ
  threshold : ℚ
deriving DecidableEq, Repr

/-- A missing (Unavailable) delta never fires the indicator. -/
def deltaRuleFired (r : DeltaRule) (d : Option ℚ) : Bool :=
  match d with
  | none => false
  | some v => decide (r.threshold ≤ v)

/-- Modelled from the spec: satisfied-weight sum over delta indicators
paired with their (possibly Unavailable) delta values; a missing delta is
zero-weight, the indicator is excluded from the sum (spec 4.2 and 4.3). -/
def scoreDeltas : List (DeltaRule × Option ℚ) → ℚ
  | [] => 0
  | (r, d) :: rest => (if deltaRuleFired r d then r.weight else 0) + scoreDeltas rest

end SDARS

namespace SDARS

/-! ## Theorems for the code-backed claims -/

/-- Claim C9: getMaxRisk is total over optional assessments, returning one of
the four band values; a missing assessment (or missing confidence field) is
treated exactly as confidence 0; and the band comparisons are strict, so a
maximum confidence exactly equal to a cut point 0.7, 0.4 or 0.1 falls into
the lower band. -/
theorem getMaxRisk_total_strict (p : Prediction) :
    (getMaxRisk p = .high ∨ getMaxRisk p = .medium ∨
      getMaxRisk p = .low ∨ getMaxRisk p = .safe)
    ∧ getMaxRisk ⟨none, p.flood, p.cyclone⟩ =
        getMaxRisk ⟨some (some 0), p.flood, p.cyclone⟩
    ∧ getMaxRisk ⟨p.fire, none, p.cyclone⟩ =
        getMaxRisk ⟨p.fire, some none, p.cyclone⟩
    ∧ (maxConf p = 7/10 → getMaxRisk p = .medium)
    ∧ (maxConf p = 2/5 → getMaxRisk p = .low)
    ∧ (maxConf p = 1/10 → getMaxRisk p = .safe) := by
  refine ⟨?_, ?_, ?_, ?_, ?_, ?_⟩
  · unfold getMaxRisk
    split
    · exact Or.inl rfl
    · split
      · exact Or.inr (Or.inl rfl)
      · split
        · exact Or.inr (Or.inr (Or.inl rfl))
        · exact Or.inr (Or.inr (Or.inr rfl))
  · simp [getMaxRisk, maxConf, confOrZero]
  · simp [getMaxRisk, maxConf, confOrZero]
  · intro h
    simp only [getMaxRisk, h]
    norm_num
  · intro h
    simp only [getMaxRisk, h]
    norm_num
  · intro h
    simp only [getMaxRisk, h]
    norm_num

/-- Witness for getMaxRisk_total_strict: a prediction with a missing fire
assessment whose maximum confidence is exactly the 0.7 cut point is
classified medium, the lower band. -/
theorem getMaxRisk_total_strict_witness :
    getMaxRisk ⟨none, some (some (7/10)), some (some (1/2))⟩ = .medium :=
  (getMaxRisk_total_strict ⟨none, some (some (7/10)), some (some (1/2))⟩).2.2.2.1
    (by norm_num [maxConf, confOrZero])

/-- Claim C8: failures are isolated per location.  Every monitored location
yields exactly one result; the result for a location is computed from that
location and its own fetch outcome alone, whatever outcomes (failures
included) surround it in the tick; and a failed location still yields an
explicit degraded result (fallback marker, or a skip when its coordinates
are missing) instead of aborting the others. -/
theorem loadAllLocations_isolated (locs : List (MapLocation × FetchOutcome)) :
    (loadAllLocations locs).length = locs.length
    ∧ (∀ pre post (loc : MapLocation) (o : FetchOutcome),
        loadAllLocations (pre ++ (loc, o) :: post) =
          loadAllLocations pre ++ addLocationMarker loc o :: loadAllLocations post)
    ∧ (∀ loc : MapLocation,
        addLocationMarker loc .failure = .fallback ∨
        addLocationMarker loc .failure = .skipped) := by
  refine ⟨by simp [loadAllLocations], ?_, ?_⟩
  · intro pre post loc o
    simp [loadAllLocations]
  · intro loc
    by_cases h : (loc.lat.isNone || loc.lon.isNone) = true
    · exact Or.inr (by simp [addLocationMarker, h])
    · exact Or.inl (by simp [addLocationMarker, h])

/-- Claim C10: after a confirmed deleteZone, no zone whose id is
string-equal to the target remains in the local zones list nor on the map,
for every backend outcome (404 and network errors included); the id
comparison normalizes both sides with String(-), so a numeric id matches the
corresponding string id; and a cancelled dialog leaves the state untouched. -/
theorem deleteZone_removes_locally (st : ZonesPageState) (zoneId : JsId)
    (outcome : DeleteOutcome) :
    (∀ z, z ∈ (deleteZone st zoneId true outcome).zones →
        jsIdString z.zone_id ≠ jsIdString zoneId)
    ∧ (∀ z, some z ∈ (deleteZone st zoneId true outcome).layers →
        jsIdString z.zone_id ≠ jsIdString zoneId)
    ∧ (∀ n : Int, jsIdString (JsId.num n) = jsIdString (JsId.str (toString n)))
    ∧ deleteZone st zoneId false outcome = st := by
  refine ⟨?_, ?_, fun n => rfl, rfl⟩
  · intro z hz
    simp only [deleteZone, Bool.not_true] at hz
    have := (List.mem_filter.mp hz).2
    simpa [bne_iff_ne] using this
  · intro z hz
    simp only [deleteZone, Bool.not_true] at hz
    have := (List.mem_filter.mp hz).2
    simpa [bne_iff_ne] using this

/-! ## Helper lemmas for the fusion-rule model -/

theorem firedWeight_split (rs : List FusionRule) :
    firedWeightOf .satellite rs + firedWeightOf .weather rs = firedWeight rs := by
  induction rs with
  | nil => simp [firedWeightOf, firedWeight]
  | cons r rs ih =>
    unfold firedWeightOf firedWeight at ih ⊢
    cases hf : r.fired <;> cases hs : r.source <;>
      simp only [List.filter_cons, hf, hs, Bool.false_and, Bool.true_and, beq_iff_eq,
        if_false, if_true, reduceCtorEq, decide_False, decide_True, List.foldr_cons] <;>
      linarith [ih]

theorem firedWeightOf_eq_zero (tag : SourceTag) (rs : List FusionRule)
    (h : ∀ r ∈ rs, r.fired → r.source ≠ tag) : firedWeightOf tag rs = 0 := by
  unfold firedWeightOf
  have hnil : rs.filter (fun r => r.fired && r.source == tag) = [] := by
    rw [List.filter_eq_nil_iff]
    intro r hr
    simp only [Bool.and_eq_true, beq_iff_eq, not_and]
    exact fun hf => h r hr hf
  rw [hnil]
  rfl

/-! ## Theorems for the spec-modelled claims C1 and C2 -/

/-- Claim C1: for every produced assessment the risk level is a
deterministic function of the confidence through the per-hazard threshold
table: equal hazard and equal confidence give equal levels; confidence at or
above the reference HIGH cut (fire 0.75, flood 0.70, cyclone 0.65) maps to
HIGH, the intermediate bands to MEDIUM and LOW. -/
theorem assignRiskLevel_deterministic (hz : Hazard) (m c c' : ℚ) (hcc : c = c') :
    assignRiskLevel ⟨referenceHighCut hz, m⟩ c = assignRiskLevel ⟨referenceHighCut hz, m⟩ c'
    ∧ (referenceHighCut hz ≤ c → assignRiskLevel ⟨referenceHighCut hz, m⟩ c = .HIGH)
    ∧ (referenceHighCut Hazard.fire = 3/4 ∧ referenceHighCut Hazard.flood = 7/10 ∧
        referenceHighCut Hazard.cyclone = 13/20)
    ∧ (c < referenceHighCut hz → m ≤ c → assignRiskLevel ⟨referenceHighCut hz, m⟩ c = .MEDIUM)
    ∧ (c < referenceHighCut hz → c < m → assignRiskLevel ⟨referenceHighCut hz, m⟩ c = .LOW) := by
  subst hcc
  refine ⟨rfl, ?_, ⟨rfl, rfl, rfl⟩, ?_, ?_⟩
  · intro h
    simp [assignRiskLevel, h]
  · intro h1 h2
    simp [assignRiskLevel, not_le.mpr h1, h2]
  · intro h1 h2
    simp [assignRiskLevel, not_le.mpr h1, not_le.mpr h2]

/-- Witness for assignRiskLevel_deterministic: a fire confidence of 0.8 is
at or above the 0.75 reference cut and is assigned HIGH. -/
theorem assignRiskLevel_deterministic_witness :
    assignRiskLevel ⟨referenceHighCut .fire, 2/5⟩ (4/5) = .HIGH :=
  (assignRiskLevel_deterministic .fire (2/5) (4/5) (4/5) rfl).2.1
    (by norm_num [referenceHighCut])

/-- Claim C2: whenever at least one rule fired, the satellite and weather
contributions sum exactly to 1 (so certainly within 1e-6); both
contributions are 0 only when the confidence is 0; and when only one source
fired, that source receives contribution 1.0 and the other 0.0. -/
theorem contribution_split (rs : List FusionRule) (hfired : firedWeight rs ≠ 0) :
    satelliteContribution rs + weatherContribution rs = 1
    ∧ |satelliteContribution rs + weatherContribution rs - 1| ≤ 1/1000000
    ∧ (∀ rs' : List FusionRule,
        satelliteContribution rs' = 0 → weatherContribution rs' = 0 → confidence rs' = 0)
    ∧ ((∀ r ∈ rs, r.fired → r.source = SourceTag.satellite) →
        satelliteContribution rs = 1 ∧ weatherContribution rs = 0)
    ∧ ((∀ r ∈ rs, r.fired → r.source = SourceTag.weather) →
        weatherContribution rs = 1 ∧ satelliteContribution rs = 0) := by
  have hsum : satelliteContribution rs + weatherContribution rs = 1 := by
    unfold satelliteContribution weatherContribution
    rw [if_neg hfired, if_neg hfired, div_add_div_same, firedWeight_split, div_self hfired]
  refine ⟨hsum, by rw [hsum]; norm_num, ?_, ?_, ?_⟩
  · intro rs' h1 h2
    by_cases h : firedWeight rs' = 0
    · unfold confidence clamp01
      rw [h, zero_div]
      norm_num
    · exfalso
      unfold satelliteContribution at h1
      unfold weatherContribution at h2
      rw [if_neg h] at h1 h2
      have hs : firedWeightOf .satellite rs' = 0 :=
        by rcases div_eq_zero_iff.mp h1 with h' | h' <;> [exact h'; exact absurd h' h]
      have hw : firedWeightOf .weather rs' = 0 :=
        by rcases div_eq_zero_iff.mp h2 with h' | h' <;> [exact h'; exact absurd h' h]
      apply h
      rw [← firedWeight_split rs', hs, hw]
      ring
  · intro hall
    have hw : firedWeightOf .weather rs = 0 :=
      firedWeightOf_eq_zero _ rs (fun r hr hf => by
        rw [hall r hr hf]
        exact fun hcon => SourceTag.noConfusion hcon)
    have hs : firedWeightOf .satellite rs = firedWeight rs := by
      have := firedWeight_split rs
      linarith
    constructor
    · unfold satelliteContribution
      rw [if_neg hfired, hs, div_self hfired]
    · unfold weatherContribution
      rw [if_neg hfired, hw, zero_div]
  · intro hall
    have hs : firedWeightOf .satellite rs = 0 :=
      firedWeightOf_eq_zero _ rs (fun r hr hf => by
        rw [hall r hr hf]
        exact fun hcon => SourceTag.noConfusion hcon)
    have hw : firedWeightOf .weather rs = firedWeight rs := by
      have := firedWeight_split rs
      linarith
    constructor
    · unfold weatherContribution
      rw [if_neg hfired, hw, div_self hfired]
    · unfold satelliteContribution
      rw [if_neg hfired, hs, zero_div]

/-- Witness for contribution_split: with one fired satellite rule and one
unfired weather rule, the satellite contribution is 1.0 and the weather
contribution 0.0. -/
theorem contribution_split_witness :
    satelliteContribution
        [⟨1/2, .satellite, "Thermal hotspots detected", true⟩,
         ⟨1/2, .weather, "Hot and dry conditions", false⟩] = 1
    ∧ weatherContribution
        [⟨1/2, .satellite, "Thermal hotspots detected", true⟩,
         ⟨1/2, .weather, "Hot and dry conditions", false⟩] = 0 :=
  (contribution_split
      [⟨1/2, .satellite, "Thermal hotspots detected", true⟩,
       ⟨1/2, .weather, "Hot and dry conditions", false⟩]
      (by norm_num [firedWeight, List.filter])).2.2.2.1
    (by decide)

/-! ## Helper lemmas for the AlertDispatcher model -/

theorem countActive_of_not_hasActive (s : List Alert) (k : AlertKey)
    (h : hasActive s k = false) : countActive s k = 0 := by
  unfold hasActive at h
  unfold countActive
  rw [List.countP_eq_zero]
  intro a ha
  intro hcon
  have := List.any_eq_true.mpr ⟨a, ha, hcon⟩
  rw [h] at this
  exact Bool.false_ne_true this

theorem countActive_map_le (s : List Alert) (k : AlertKey) (f : Alert → Alert)
    (hf : ∀ a, isActiveFor k (f a) = true → isActiveFor k a = true) :
    countActive (s.map f) k ≤ countActive s k := by
  unfold countActive
  rw [List.countP_map]
  exact List.countP_mono_left (fun a _ => hf a)

theorem ackOne_active (k : AlertKey) (aid : Nat) (a : Alert)
    (h : isActiveFor k (ackOne aid a) = true) : isActiveFor k a = true := by
  unfold ackOne at h
  by_cases hc : (a.id == aid && a.state == AlertState.ACTIVE) = true
  · rw [if_pos hc] at h
    unfold isActiveFor Alert.key at h
    simp at h
  · rwa [if_neg hc] at h

theorem archiveOne_active (k : AlertKey) (aid : Nat) (a : Alert)
    (h : isActiveFor k (if a.id == aid then { a with state := .ARCHIVED } else a) = true) :
    isActiveFor k a = true := by
  by_cases hc : (a.id == aid) = true
  · rw [if_pos hc] at h
    unfold isActiveFor Alert.key at h
    simp at h
  · rwa [if_neg hc] at h

theorem applyOp_atMostOne (s : List Alert) (op : DispatchOp)
    (h : ∀ k, countActive s k ≤ 1) : ∀ k, countActive (applyOp s op) k ≤ 1 := by
  intro k
  match op with
  | .create i k' =>
    obtain ⟨z, hzh⟩ := k'
    show countActive (createAlert s i (z, hzh)) k ≤ 1
    unfold createAlert
    by_cases hact : hasActive s (z, hzh) = true
    · rw [if_pos hact]
      exact h k
    · rw [if_neg hact]
      have h0 : countActive s (z, hzh) = 0 :=
        countActive_of_not_hasActive s (z, hzh) (Bool.eq_false_iff.mpr hact)
      unfold countActive at h0 ⊢
      rw [List.countP_cons]
      by_cases hk : isActiveFor k ⟨i, z, hzh, .ACTIVE⟩ = true
      · have hkk : (z, hzh) = k := by
          unfold isActiveFor Alert.key at hk
          simp only [Bool.and_eq_true, beq_iff_eq] at hk
          exact hk.1
        rw [hkk] at h0
        simp [hk, h0]
      · simp only [hk, if_false]
        exact h k
  | .ack i =>
    exact le_trans (countActive_map_le s k (ackOne i) (ackOne_active k i)) (h k)
  | .archive i =>
    exact le_trans
      (countActive_map_le s k (fun a => if a.id == i then { a with state := .ARCHIVED } else a)
        (archiveOne_active k i)) (h k)

theorem ackOne_idem (aid : Nat) (a : Alert) :
    ackOne aid (ackOne aid a) = ackOne aid a := by
  unfold ackOne
  by_cases hc : (a.id == aid && a.state == AlertState.ACTIVE) = true
  · rw [if_pos hc]
    simp
  · rw [if_neg hc, if_neg hc]

/-- Claim C3: at no reachable alert store do two ACTIVE alerts exist for the
same (zone_id-or-null, hazard_type) key: every sequence of lifecycle
operations starting from the empty store, with the check-then-create step
serialized per key as the spec requires, leaves at most one ACTIVE alert per
key, duplicates being suppressed by createAlert. -/
theorem atMostOneActive_per_key (ops : List DispatchOp) (k : AlertKey) :
    countActive (runOps ops) k ≤ 1 := by
  suffices hgen : ∀ s, (∀ k, countActive s k ≤ 1) →
      ∀ k, countActive (ops.foldl applyOp s) k ≤ 1 by
    exact hgen [] (fun k => by simp [countActive]) k
  induction ops with
  | nil =>
    intro s hs
    exact hs
  | cons op ops ih =>
    intro s hs
    exact ih (applyOp s op) (applyOp_atMostOne s op hs)

/-- Claim C4: acknowledge is idempotent: on a single alert state the second
acknowledgment leaves the same terminal state (an already-ACKNOWLEDGED alert
is a no-op, not an error), and on the whole store acknowledging the same
alert id twice equals acknowledging it once. -/
theorem acknowledge_idempotent (st : AlertState) (s : List Alert) (aid : Nat) :
    ackState (ackState st) = ackState st
    ∧ ackState .ACKNOWLEDGED = .ACKNOWLEDGED
    ∧ acknowledge (acknowledge s aid) aid = acknowledge s aid := by
  refine ⟨by cases st <;> rfl, rfl, ?_⟩
  induction s with
  | nil => rfl
  | cons a s ih =>
    show acknowledge (acknowledge (a :: s) aid) aid = acknowledge (a :: s) aid
    unfold acknowledge at ih ⊢
    simp only [List.map_cons]
    rw [ackOne_idem aid a, ih]

/-! ## Helper lemmas for the delivery aggregation model -/

theorem countP_delivery_split (l : List DeliveryResult) :
    l.countP (fun d => d == .delivered) + l.countP (fun d => d == .bounced) = l.length := by
  induction l with
  | nil => rfl
  | cons d l ih =>
    cases d <;> simp [List.countP_cons] <;> omega

theorem deliveryAttempts_length (recipients channels : List String)
    (send : String → String → DeliveryResult) :
    (deliveryAttempts recipients channels send).length
      = recipients.length * channels.length := by
  unfold deliveryAttempts
  induction recipients with
  | nil => simp
  | cons r rest ih =>
    simp only [List.flatMap_cons, List.length_append, List.length_map, List.length_cons, ih]
    ring

/-- Claim C5: the verification summary of a zone create has status exactly
one of success, skipped, error; skipped exactly when no recipients or no
channels are configured; error only on a systemic failure; and absent a
systemic failure the status is success with every attempt accounted for in
success_count plus failure_count, so a single recipient bounce never yields
error. -/
theorem verifyDelivery_spec (recipients channels : List String)
    (send : String → String → DeliveryResult) (systemicFailure : Bool) :
    ((verifyDelivery recipients channels send systemicFailure).status = .success ∨
      (verifyDelivery recipients channels send systemicFailure).status = .skipped ∨
      (verifyDelivery recipients channels send systemicFailure).status = .error)
    ∧ ((verifyDelivery recipients channels send systemicFailure).status = .skipped ↔
        (recipients = [] ∨ channels = []))
    ∧ ((verifyDelivery recipients channels send systemicFailure).status = .error →
        systemicFailure = true)
    ∧ (recipients ≠ [] → channels ≠ [] → systemicFailure = false →
        (verifyDelivery recipients channels send systemicFailure).status = .success ∧
        (verifyDelivery recipients channels send systemicFailure).success_count +
          (verifyDelivery recipients channels send systemicFailure).failure_count =
          recipients.length * channels.length) := by
  by_cases hempty : (recipients.isEmpty || channels.isEmpty) = true
  · have hor : recipients.isEmpty = true ∨ channels.isEmpty = true := by
      simpa using hempty
    have hcase : recipients = [] ∨ channels = [] := by
      rcases hor with h | h
      · exact Or.inl (List.isEmpty_iff.mp h)
      · exact Or.inr (List.isEmpty_iff.mp h)
    unfold verifyDelivery
    rw [if_pos hempty]
    refine ⟨Or.inr (Or.inl rfl), ⟨fun _ => hcase, fun _ => rfl⟩,
      fun hcon => VerifStatus.noConfusion hcon, ?_⟩
    intro h1 h2 _
    rcases hcase with h | h
    · exact absurd h h1
    · exact absurd h h2
  · have h1 : recipients ≠ [] := by
      intro hcon
      apply hempty
      simp [hcon]
    have h2 : channels ≠ [] := by
      intro hcon
      apply hempty
      simp [hcon]
    unfold verifyDelivery
    rw [if_neg hempty]
    by_cases hsys : systemicFailure = true
    · rw [if_pos hsys]
      refine ⟨Or.inr (Or.inr rfl), ?_, fun _ => hsys, ?_⟩
      · constructor
        · intro hcon
          exact VerifStatus.noConfusion hcon
        · intro hcase
          rcases hcase with h | h
          · exact absurd h h1
          · exact absurd h h2
      · intro _ _ hns
        rw [hsys] at hns
        exact Bool.noConfusion hns
    · rw [if_neg hsys]
      refine ⟨Or.inl rfl, ?_, fun hcon => VerifStatus.noConfusion hcon, ?_⟩
      · constructor
        · intro hcon
          exact VerifStatus.noConfusion hcon
        · intro hcase
          rcases hcase with h | h
          · exact absurd h h1
          · exact absurd h h2
      · intro _ _ _
        exact ⟨rfl, by
          show (deliveryAttempts recipients channels send).countP (fun d => d == .delivered) +
              (deliveryAttempts recipients channels send).countP (fun d => d == .bounced) =
              recipients.length * channels.length
          rw [countP_delivery_split, deliveryAttempts_length]⟩

/-- Witness for verifyDelivery_spec: one recipient over one channel whose
send bounces still yields status success with the bounce counted in
failure_count. -/
theorem verifyDelivery_spec_witness :
    (verifyDelivery ["ops@example.com"] ["email"] (fun _ _ => .bounced) false).status = .success
    ∧ (verifyDelivery ["ops@example.com"] ["email"] (fun _ _ => .bounced) false).success_count +
        (verifyDelivery ["ops@example.com"] ["email"] (fun _ _ => .bounced) false).failure_count
        = 1 :=
  (verifyDelivery_spec ["ops@example.com"] ["email"] (fun _ _ => .bounced) false).2.2.2
    (List.cons_ne_nil _ _) (List.cons_ne_nil _ _) rfl

/-- Claim C6: the ZoneMatcher returns a zone exactly when the point lies
inside the zone polygon under the ray-casting test and the assessment risk
level meets or exceeds the zone severity_threshold in the ordinal order
LOW < MEDIUM < HIGH < CRITICAL; the ray-casting test itself classifies an
interior point of a square as inside and an exterior point as outside. -/
theorem matchesZones_iff (registry : List SubZone) (p : GeoPoint) (risk : RiskLevel)
    (z : SubZone) :
    (z ∈ matchesZones registry p risk ↔
      z ∈ registry ∧ pointInPolygon z.polygon p = true ∧
        riskRank z.severity_threshold ≤ riskRank risk)
    ∧ pointInPolygon [⟨0, 0⟩, ⟨0, 4⟩, ⟨4, 4⟩, ⟨4, 0⟩] ⟨2, 2⟩ = true
    ∧ pointInPolygon [⟨0, 0⟩, ⟨0, 4⟩, ⟨4, 4⟩, ⟨4, 0⟩] ⟨5, 5⟩ = false := by
  refine ⟨?_, by norm_num [pointInPolygon, polygonEdges, crossesRay],
    by norm_num [pointInPolygon, polygonEdges, crossesRay]⟩
  unfold matchesZones
  rw [List.mem_filter]
  simp [Bool.and_eq_true, decide_eq_true_eq, and_assoc]

/-- Claim C7: when no recorded sample falls within the tolerance window
around now - offset, the delta is Unavailable rather than interpolated, and
downstream scoring gives the indicator zero weight (it is excluded from the
satisfied-weight sum) instead of scoring it as a delta of zero. -/
theorem delta_unavailable (hist : List WeatherSample) (current : WeatherSample)
    (now offset : ℚ) (h : ∀ s ∈ hist, withinTolerance now offset s = false) :
    deltaTemperature hist current now offset = none
    ∧ (∀ (r : DeltaRule) (rest : List (DeltaRule × Option ℚ)),
        scoreDeltas ((r, none) :: rest) = scoreDeltas rest) := by
  constructor
  · unfold deltaTemperature
    have hnil : hist.filter (withinTolerance now offset) = [] := by
      rw [List.filter_eq_nil_iff]
      intro s hs
      rw [h s hs]
      exact Bool.false_ne_true
    rw [hnil]
    rfl
  · intro r rest
    simp [scoreDeltas, deltaRuleFired]

/-- Witness for delta_unavailable: with a single sample far older than the
1h-offset tolerance window, the 1h temperature delta is Unavailable. -/
theorem delta_unavailable_witness :
    deltaTemperature [⟨0, 30, 1010, 60⟩] ⟨100000, 35, 1008, 40⟩ 100000 3600 = none :=
  (delta_unavailable [⟨0, 30, 1010, 60⟩] ⟨100000, 35, 1008, 40⟩ 100000 3600
    (by
      intro s hs
      simp only [List.mem_singleton] at hs
      subst hs
      norm_num [withinTolerance])).1

/-- Witness for deleteZone_removes_locally: deleting the string id "5" while
the backend answers 404 removes the numerically-identified zone 5 and keeps
zone 7, whose id the theorem shows distinct from the target. -/
theorem deleteZone_removes_locally_witness :
    (deleteZone ⟨[⟨.num 5, "A"⟩, ⟨.num 7, "B"⟩], [some ⟨.num 5, "A"⟩, none]⟩
        (JsId.str "5") true .notFound404).zones = [⟨.num 7, "B"⟩]
    ∧ jsIdString (ZoneRec.mk (JsId.num 7) "B").zone_id ≠ jsIdString (JsId.str "5") := by
  constructor
  · rfl
  · exact (deleteZone_removes_locally
      ⟨[⟨.num 5, "A"⟩, ⟨.num 7, "B"⟩], [some ⟨.num 5, "A"⟩, none]⟩
      (JsId.str "5") .notFound404).1 ⟨.num 7, "B"⟩ (by decide)

end SDARS
